import Mathlib

/-!
Shallow embedding of the freaky-fit backend pieces that the claims concern:

* `src/backend/dist/middlewares/subscription.middleware.js` —
  `canGenerateWorkoutPlan` / `canGenerateMealPlan`: quota gates over a
  per-user collection of subscription documents.
* `src/backend/src/libs/workoutPlanGenerator.ts` — AI-payload validation and
  per-exercise video enrichment.
* `src/backend/src/routes/admin.ts` — admin CRUD handlers with password
  stripping and zod validation.

Dates are modelled as integers (milliseconds since epoch); the document store
is modelled as an explicit list of documents threaded through each handler;
JavaScript exceptions are modelled with `Except String`.
-/

set_option autoImplicit false

namespace FreakyFit

/-! ## Subscription model (subscription.middleware.js) -/

/-- Plan tier of a subscription document (`plan: 'FREE' | 'PREMIUM'`). -/
inductive Plan where
  | FREE
  | PREMIUM
  deriving DecidableEq, Repr

/-- A subscription document, as read and written by the gate middlewares.
The `user` field is implicit: the store below holds the documents of one
user, mirroring the `findOne({user: req.user._id, ...})` filter. -/
structure Subscription where
  plan : Plan
  active : Bool
  startDate : Int
  endDate : Int
  workoutPlansGenerated : Nat
  mealPlansGenerated : Nat
  deriving DecidableEq, Repr

/-- The `findOne({active: true, endDate: {$gte: now}})` filter predicate. -/
def subMatches (now : Int) (s : Subscription) : Bool :=
  s.active && decide (now ≤ s.endDate)

/-- Model of `findOne` over an insertion-ordered collection, returning the first
matching document together with the documents before and after it, so that a
subsequent `save()` can be modelled as an in-place replacement. -/
def findSplit {α : Type} (p : α → Bool) : List α → Option (List α × α × List α)
  | [] => none
  | x :: xs =>
    if p x then some ([], x, xs)
    else
      match findSplit p xs with
      | none => none
      | some (pre, y, post) => some (x :: pre, y, post)

/-- Model of `endDate.setFullYear(endDate.getFullYear() + 1)`: adding one
(non-leap) year of milliseconds. -/
def addOneYear (t : Int) : Int := t + 31536000000

/-- The document built by `Subscription.create({...})` in the
no-subscription branch of both gates: plan FREE, active, starting now,
expiring in one year, both counters 0. -/
def createFreeSubscription (now : Int) : Subscription :=
  { plan := Plan.FREE
    active := true
    startDate := now
    endDate := addOneYear now
    workoutPlansGenerated := 0
    mealPlansGenerated := 0 }

/-- Outcome sent to the client by a gate middleware: either the request is
passed on (`next()`), or a JSON rejection is sent. `subscriptionRequired`
is `none` when the body carries no such field (the 401 body). -/
inductive GateResponse where
  | allowed
  | rejected (status : Nat) (success : Bool) (message : String)
      (subscriptionRequired : Option Bool)
  deriving DecidableEq, Repr

/-- Result of running a gate middleware: the subscription collection after
all `create`/`save` calls, and the response decision. -/
structure GateResult where
  state : List Subscription
  response : GateResponse
  deriving DecidableEq, Repr

/-- The 403 body message of the workout gate. -/
def workoutLimitMessage : String :=
  "Free subscription limit reached. Please upgrade to premium to generate more workout plans."

/-- The 403 body message of the meal gate. -/
def mealLimitMessage : String :=
  "Free subscription limit reached. Please upgrade to premium to generate more meal plans."

/-- The 401 body message of both gates. -/
def noUserMessage : String := "Not authorized, user not found"

/-- Middleware `canGenerateWorkoutPlan`. `hasUser` models the
`req.user?._id` presence check; `now` the value of `new Date()`; `subs` the
user's subscription documents in insertion order. -/
def canGenerateWorkoutPlan (hasUser : Bool) (now : Int)
    (subs : List Subscription) : GateResult :=
  if hasUser = false then
    { state := subs, response := .rejected 401 false noUserMessage none }
  else
    match findSplit (subMatches now) subs with
    | none =>
      let newSub := createFreeSubscription now
      if newSub.plan = Plan.FREE ∧ 2 ≤ newSub.workoutPlansGenerated then
        { state := subs ++ [newSub]
          response := .rejected 403 false workoutLimitMessage (some true) }
      else
        { state :=
            subs ++ [{ newSub with workoutPlansGenerated := newSub.workoutPlansGenerated + 1 }]
          response := .allowed }
    | some (pre, s, post) =>
      if s.plan = Plan.PREMIUM then
        { state := pre ++ s :: post, response := .allowed }
      else if s.plan = Plan.FREE ∧ 2 ≤ s.workoutPlansGenerated then
        { state := pre ++ s :: post
          response := .rejected 403 false workoutLimitMessage (some true) }
      else
        { state :=
            pre ++ { s with workoutPlansGenerated := s.workoutPlansGenerated + 1 } :: post
          response := .allowed }

/-- Middleware `canGenerateMealPlan`: identical control flow, but checks and
increments `mealPlansGenerated`. -/
def canGenerateMealPlan (hasUser : Bool) (now : Int)
    (subs : List Subscription) : GateResult :=
  if hasUser = false then
    { state := subs, response := .rejected 401 false noUserMessage none }
  else
    match findSplit (subMatches now) subs with
    | none =>
      let newSub := createFreeSubscription now
      if newSub.plan = Plan.FREE ∧ 2 ≤ newSub.mealPlansGenerated then
        { state := subs ++ [newSub]
          response := .rejected 403 false mealLimitMessage (some true) }
      else
        { state :=
            subs ++ [{ newSub with mealPlansGenerated := newSub.mealPlansGenerated + 1 }]
          response := .allowed }
    | some (pre, s, post) =>
      if s.plan = Plan.PREMIUM then
        { state := pre ++ s :: post, response := .allowed }
      else if s.plan = Plan.FREE ∧ 2 ≤ s.mealPlansGenerated then
        { state := pre ++ s :: post
          response := .rejected 403 false mealLimitMessage (some true) }
      else
        { state :=
            pre ++ { s with mealPlansGenerated := s.mealPlansGenerated + 1 } :: post
          response := .allowed }

/-! ## Plan-generation pipeline (workoutPlanGenerator.ts)

The AI payload is dynamic JavaScript data: a section that may be absent is
an `Option`, and reading `.exercises` (or `Object.keys`) of an absent
section throws a `TypeError`, modelled with `Except String`. -/

/-- An exercise entry of the AI payload: a name and the mutable
video-reference field that enrichment overwrites. -/
structure Exercise where
  name : String
  gif_url : String
  deriving DecidableEq, Repr

/-- Modelled from the spec: a section of the `workout_plan` payload
(`warm_up`, `cool_down`, or one day of `daily_workouts`) holds an
`exercises` list; the `WorkoutPlan` interface itself lives in the missing
`libs/gemini.ts`. -/
structure ExerciseSection where
  exercises : List Exercise
  deriving DecidableEq, Repr

/-- Modelled from the spec: the `workout_plan` object must contain
`daily_workouts` (a day-keyed mapping of sections), `warm_up` and
`cool_down`; since the payload is unvalidated JSON, each may be absent. -/
structure RawWorkoutPlan where
  daily_workouts : Option (List (String × ExerciseSection))
  warm_up : Option ExerciseSection
  cool_down : Option ExerciseSection
  deriving DecidableEq, Repr

/-- Modelled from the spec: the `data` object of a successful Gemini
response; `workout_plan = none` covers both an absent key and a
null/undefined value. -/
structure GeminiData where
  workout_plan : Option RawWorkoutPlan
  deriving DecidableEq, Repr

/-- Modelled from the spec: the Gemini client resolves to a success flag,
optional structured payload, optional message/error (`GeminiResponse` in
the missing `libs/gemini.ts`). -/
structure GeminiResponse where
  success : Bool
  data : Option GeminiData
  message : Option String
  error : Option String
  deriving DecidableEq, Repr

/-- A fully enriched workout plan: all three sections present, as returned
in the success envelope. -/
structure EnrichedWorkoutPlan where
  daily_workouts : List (String × ExerciseSection)
  warm_up : ExerciseSection
  cool_down : ExerciseSection
  deriving DecidableEq, Repr

/-- The value `workoutPlanGenerator` resolves to. `error = none` models an
absent `error` key. -/
structure GenResult where
  success : Bool
  message : String
  data : Option EnrichedWorkoutPlan
  error : Option String
  deriving DecidableEq, Repr

/-- Type guard `isWorkoutPlan(data)`: `data && 'workout_plan' in data` with
a truthy value (the `!result.data.workout_plan` re-check collapses into the
same `Option` test). -/
def isWorkoutPlan (data : GeminiData) : Bool :=
  data.workout_plan.isSome

/-- JavaScript `m || d` on an optional string: the default is used when the
value is absent or empty (falsy). -/
def jsOr (m : Option String) (d : String) : String :=
  match m with
  | none => d
  | some s => if s = "" then d else s

/-- Message of the `TypeError` thrown when a section is absent and the loop
reads `.exercises` (or `Object.keys`) of `undefined`. -/
def undefinedError : String := "Cannot read properties of undefined"

/-- The result returned when validation of the payload shape fails. -/
def invalidDataResult : GenResult :=
  { success := false
    message := "Invalid workout plan data received"
    data := none
    error := some ("Missing workout plan data") }

/-- The sequential per-exercise enrichment loop over one `exercises` list:
each exercise's `gif_url` is overwritten with `getExerciseVideo(name)`; a
throwing lookup aborts the loop. -/
def enrichExercises (getVideo : String → Except String String) :
    List Exercise → Except String (List Exercise)
  | [] => .ok []
  | e :: rest =>
    match getVideo e.name with
    | .error m => .error m
    | .ok url =>
      match enrichExercises getVideo rest with
      | .error m => .error m
      | .ok tail => .ok ({ e with gif_url := url } :: tail)

/-- The loop over `Object.keys(workoutPlan.daily_workouts)`. -/
def enrichDays (getVideo : String → Except String String) :
    List (String × ExerciseSection) → Except String (List (String × ExerciseSection))
  | [] => .ok []
  | (day, sec) :: rest =>
    match enrichExercises getVideo sec.exercises with
    | .error m => .error m
    | .ok exs =>
      match enrichDays getVideo rest with
      | .error m => .error m
      | .ok tail => .ok ((day, ⟨exs⟩) :: tail)

/-- The three enrichment loops in source order: daily workouts, then
warm-up, then cool-down; an absent section throws when dereferenced. -/
def enrichPlan (getVideo : String → Except String String) (wp : RawWorkoutPlan) :
    Except String EnrichedWorkoutPlan :=
  match wp.daily_workouts with
  | none => .error undefinedError
  | some days =>
    match enrichDays getVideo days with
    | .error m => .error m
    | .ok days2 =>
      match wp.warm_up with
      | none => .error undefinedError
      | some w =>
        match enrichExercises getVideo w.exercises with
        | .error m => .error m
        | .ok w2 =>
          match wp.cool_down with
          | none => .error undefinedError
          | some c =>
            match enrichExercises getVideo c.exercises with
            | .error m => .error m
            | .ok c2 => .ok { daily_workouts := days2, warm_up := ⟨w2⟩, cool_down := ⟨c2⟩ }

/-- Body of the `try` block of `workoutPlanGenerator`, given the resolved
Gemini response: Gemini-failure check, payload-shape validation, then
enrichment; a thrown `TypeError` or video-lookup error escapes as
`Except.error`. -/
def workoutPlanGeneratorBody (getVideo : String → Except String String)
    (result : GeminiResponse) : Except String GenResult :=
  if result.success = false then
    .ok { success := false
          message := jsOr result.message ("Failed to generate workout plan")
          data := none
          error := result.error }
  else
    match result.data with
    | none => .ok invalidDataResult
    | some d =>
      if isWorkoutPlan d = false then .ok invalidDataResult
      else
        match d.workout_plan with
        | none => .ok invalidDataResult
        | some wp =>
          match enrichPlan getVideo wp with
          | .error m => .error m
          | .ok plan =>
            .ok { success := true
                  message := "Workout plan generated successfully"
                  data := some plan
                  error := none }

/-- Function `workoutPlanGenerator`: the `try/catch` wrapper — any exception from the
body is converted to a failure result, so the function never throws. -/
def workoutPlanGenerator (getVideo : String → Except String String)
    (result : GeminiResponse) : GenResult :=
  match workoutPlanGeneratorBody getVideo result with
  | .ok r => r
  | .error e =>
    { success := false
      message := "Failed to generate workout plan"
      data := none
      error := some e }

/-- All exercises of an enriched plan, across the three sections. -/
def allExercises (p : EnrichedWorkoutPlan) : List Exercise :=
  (p.daily_workouts.map (fun d => d.2.exercises)).flatten
    ++ p.warm_up.exercises ++ p.cool_down.exercises

/-- The exercises of an optional section (none when the section is absent). -/
def optSectionExercises : Option ExerciseSection → List Exercise
  | none => []
  | some s => s.exercises

/-- All exercises present in a raw (unvalidated) payload. -/
def rawAllExercises (wp : RawWorkoutPlan) : List Exercise :=
  (match wp.daily_workouts with
    | none => []
    | some ds => (ds.map (fun d => d.2.exercises)).flatten)
    ++ optSectionExercises wp.warm_up ++ optSectionExercises wp.cool_down

/-! ## Admin role-gated CRUD (routes/admin.ts)

The handlers below model the route bodies after `auth` and
`checkRole(['ADMIN'])` have passed. The user collection is a list of
documents; serialization to JSON is modelled as a flat key/value list so
that "contains a password field" is a real predicate of the response. -/

/-- Role tag of a user document. -/
inductive Role where
  | ADMIN
  | TRAINER
  | USER
  deriving DecidableEq, Repr

/-- A stored user document. `password` is `some` hashed-password for
stored users (`none` models an absent key). -/
structure UserDoc where
  id : Nat
  name : String
  email : String
  password : Option String
  role : Role
  specialization : String
  hourlyRate : Int
  bio : String
  isVerified : Bool
  deriving DecidableEq, Repr

def roleToString : Role → String
  | .ADMIN => "ADMIN"
  | .TRAINER => "TRAINER"
  | .USER => "USER"

/-- Serialization of a user document to its JSON fields (`toObject`),
including the stored password when present. -/
def userToFields (u : UserDoc) : List (String × String) :=
  [("_id", toString u.id), ("name", u.name), ("email", u.email)]
    ++ (match u.password with
        | none => []
        | some p => [("password", p)])
    ++ [("role", roleToString u.role), ("specialization", u.specialization),
        ("hourlyRate", toString u.hourlyRate), ("bio", u.bio),
        ("isVerified", if u.isVerified then ("true") else ("false"))]

/-- Model of `delete obj.key` / mongoose `.select('-key')`: drop a field from the
serialized object. -/
def deleteField (key : String) : List (String × String) → List (String × String)
  | [] => []
  | kv :: fs =>
    if kv.1 == key then deleteField key fs else kv :: deleteField key fs

/-- The response shape of every admin route: a JSON object or an array of
JSON objects, each a flat key/value list. -/
inductive Body where
  | obj (fields : List (String × String))
  | arr (objs : List (List (String × String)))
  deriving DecidableEq, Repr

/-- Whether a serialized object carries a `password` key. -/
def fieldsHavePassword : List (String × String) → Bool
  | [] => false
  | kv :: fs => kv.1 == "password" || fieldsHavePassword fs

/-- Whether any object of a response body carries a `password` key. -/
def bodyHasPassword : Body → Bool
  | .obj fs => fieldsHavePassword fs
  | .arr objs => objs.any fieldsHavePassword

/-- An HTTP response as produced by `res.status(...).json(...)`
(`res.json(...)` alone is status 200). -/
structure HttpResponse where
  status : Nat
  body : Body
  deriving DecidableEq, Repr

/-- A user document serialized with the password removed. -/
def stripUser (u : UserDoc) : List (String × String) :=
  deleteField ("password") (userToFields u)

/-- Insertion into a name-sorted list (`.sort({name: 1})`). -/
def insertByName (u : UserDoc) : List UserDoc → List UserDoc
  | [] => [u]
  | v :: vs => if u.name < v.name then u :: v :: vs else v :: insertByName u vs

/-- Sorting a user list by name. -/
def sortByName : List UserDoc → List UserDoc
  | [] => []
  | u :: us => insertByName u (sortByName us)

/-- Handler of `GET /trainers`: all TRAINER documents, password projected away,
sorted by name. -/
def getTrainers (store : List UserDoc) : HttpResponse :=
  { status := 200,
    body := .arr ((sortByName (store.filter (fun u => u.role == Role.TRAINER))).map stripUser) }

/-- Request body of `POST /trainers`. -/
structure NewTrainerBody where
  name : String
  email : String
  password : String
  specialization : String
  hourlyRate : Int
  bio : String
  deriving DecidableEq, Repr

/-- A fresh document id for `new User(...)`. -/
def freshId (store : List UserDoc) : Nat :=
  (store.map UserDoc.id).foldr max 0 + 1

/-- Handler of `POST /trainers`: reject 400 when the email exists, else create a
verified TRAINER with the hashed password and respond 201 with the
password-stripped document. `hash` models `bcrypt.hash`. -/
def postTrainer (hash : String → String) (store : List UserDoc)
    (b : NewTrainerBody) : HttpResponse × List UserDoc :=
  if (store.find? (fun u => u.email == b.email)).isSome then
    ({ status := 400, body := .obj [("error", "Email already exists")] }, store)
  else
    let trainer : UserDoc :=
      { id := freshId store, name := b.name, email := b.email,
        password := some (hash b.password), role := Role.TRAINER,
        specialization := b.specialization, hourlyRate := b.hourlyRate,
        bio := b.bio, isVerified := true }
    ({ status := 201, body := .obj (stripUser trainer) }, store ++ [trainer])

/-- Request body of `PATCH /trainers/:trainerId`; each field may be absent. -/
structure PatchTrainerBody where
  name : Option String
  specialization : Option String
  hourlyRate : Option Int
  bio : Option String
  isVerified : Option Bool
  deriving DecidableEq, Repr

/-- The four `if (field) trainer.field = field` guards plus the
`typeof isVerified === 'boolean'` guard, in source order. A `some ("")` or
`some 0` value is falsy and leaves the field untouched. -/
def applyTrainerUpdates (b : PatchTrainerBody) (u : UserDoc) : UserDoc :=
  let u1 := match b.name with
    | some s => if s ≠ "" then { u with name := s } else u
    | none => u
  let u2 := match b.specialization with
    | some s => if s ≠ "" then { u1 with specialization := s } else u1
    | none => u1
  let u3 := match b.hourlyRate with
    | some n => if n ≠ 0 then { u2 with hourlyRate := n } else u2
    | none => u2
  let u4 := match b.bio with
    | some s => if s ≠ "" then { u3 with bio := s } else u3
    | none => u3
  match b.isVerified with
  | some v => { u4 with isVerified := v }
  | none => u4

/-- Model of `findOne({_id: trainerId, role: 'TRAINER'})`. -/
def findTrainer (store : List UserDoc) (tid : Nat) : Option UserDoc :=
  store.find? (fun u => u.id == tid && u.role == Role.TRAINER)

/-- Model of `save()` on a found document: replace it in the collection by id. -/
def replaceById (store : List UserDoc) (u : UserDoc) : List UserDoc :=
  store.map (fun v => if v.id == u.id then u else v)

/-- Handler of `PATCH /trainers/:trainerId`: truthiness-guarded field updates. -/
def patchTrainer (store : List UserDoc) (tid : Nat) (b : PatchTrainerBody) :
    HttpResponse × List UserDoc :=
  match findTrainer store tid with
  | none => ({ status := 404, body := .obj [("error", "Trainer not found")] }, store)
  | some u =>
    let u2 := applyTrainerUpdates b u
    ({ status := 200, body := .obj (stripUser u2) }, replaceById store u2)

/-- Handler of `DELETE /trainers/:trainerId`. -/
def deleteTrainer (store : List UserDoc) (tid : Nat) :
    HttpResponse × List UserDoc :=
  match findTrainer store tid with
  | none => ({ status := 404, body := .obj [("error", "Trainer not found")] }, store)
  | some u =>
    ({ status := 200, body := .obj [("message", "Trainer deleted successfully")] },
      store.filter (fun v => v.id != u.id))

/-- Handler of `GET /users`: every document, password projected away, sorted by name. -/
def getUsers (store : List UserDoc) : HttpResponse :=
  { status := 200, body := .arr ((sortByName store).map stripUser) }

/-- Validation `z.enum(['ADMIN', 'TRAINER', 'USER'])` on the `role` body field. -/
def roleOfString (s : String) : Option Role :=
  if s = "ADMIN" then some Role.ADMIN
  else if s = "TRAINER" then some Role.TRAINER
  else if s = "USER" then some Role.USER
  else none

/-- The first zod schema-violation message for an invalid `role` value. -/
def invalidEnumMessage (received : String) : String :=
  "Invalid enum value. Expected ADMIN | TRAINER | USER, received " ++ received

/-- Handler of `PATCH /users/:userId/role`: zod validation of the body before any
store access; then find, update, and respond password-stripped. -/
def patchUserRole (store : List UserDoc) (uid : Nat) (roleStr : String) :
    HttpResponse × List UserDoc :=
  match roleOfString roleStr with
  | none =>
    ({ status := 400, body := .obj [("error", invalidEnumMessage roleStr)] }, store)
  | some r =>
    match store.find? (fun u => u.id == uid) with
    | none => ({ status := 404, body := .obj [("error", "User not found")] }, store)
    | some u =>
      let u2 := { u with role := r }
      ({ status := 200, body := .obj (stripUser u2) }, replaceById store u2)

/-- Request body of `PATCH /trainers/:trainerId/info`. -/
structure TrainerInfoBody where
  specialization : String
  hourlyRate : Int
  bio : String
  deriving DecidableEq, Repr

/-- zod validation of `updateTrainerInfoSchema`, returning the first
schema-violation message (fields in schema order). -/
def validateTrainerInfo (b : TrainerInfoBody) : Option String :=
  if b.specialization = "" then some ("Specialization is required")
  else if b.hourlyRate < 0 then some ("Hourly rate must be positive")
  else if b.bio = "" then some ("Bio is required")
  else none

/-- Handler of `PATCH /trainers/:trainerId/info`. -/
def patchTrainerInfo (store : List UserDoc) (tid : Nat) (b : TrainerInfoBody) :
    HttpResponse × List UserDoc :=
  match validateTrainerInfo b with
  | some msg => ({ status := 400, body := .obj [("error", msg)] }, store)
  | none =>
    match findTrainer store tid with
    | none => ({ status := 404, body := .obj [("error", "Trainer not found")] }, store)
    | some u =>
      let u2 : UserDoc :=
        { u with
          specialization := b.specialization,
          hourlyRate := b.hourlyRate,
          bio := b.bio }
      ({ status := 200, body := .obj (stripUser u2) }, replaceById store u2)

/-! ### Concrete inputs used by counterexamples and witnesses -/

/-- A video-search client that succeeds on every exercise name. -/
def gvAlwaysOk : String → Except String String :=
  fun n => Except.ok ("video:" ++ n)

/-- A `workout_plan` object lacking all three required sections. -/
def emptyRawPlan : RawWorkoutPlan :=
  { daily_workouts := none, warm_up := none, cool_down := none }

/-- A successful Gemini response whose `workout_plan` lacks
`daily_workouts`, `warm_up` and `cool_down`. -/
def c2Response : GeminiResponse :=
  { success := true
    data := some { workout_plan := some emptyRawPlan }
    message := none
    error := none }

/-- A sample exercise with a placeholder video reference. -/
def sampleExercise : Exercise := { name := "pushup", gif_url := "placeholder" }

/-- A complete one-day raw plan. -/
def samplePlan : RawWorkoutPlan :=
  { daily_workouts := some [("day_1", { exercises := [sampleExercise] })],
    warm_up := some { exercises := [sampleExercise] },
    cool_down := some { exercises := [sampleExercise] } }

/-- A successful Gemini response with a complete one-day plan. -/
def samplePlanResponse : GeminiResponse :=
  { success := true,
    data := some { workout_plan := some samplePlan },
    message := none,
    error := none }

/-- A Gemini response reporting failure. -/
def failedGemini : GeminiResponse :=
  { success := false, data := none, message := some ("quota exceeded"),
    error := some ("429") }

/-- A stored trainer document (with a stored password hash). -/
def sampleTrainer : UserDoc :=
  { id := 1, name := "Alice", email := "alice@example.com",
    password := some ("hashed-secret"), role := Role.TRAINER,
    specialization := "yoga", hourlyRate := 30, bio := "trainer bio",
    isVerified := true }

/-- A `PATCH /trainers/:id` body whose every supplied value is falsy. -/
def falsyPatchBody : PatchTrainerBody :=
  { name := some (""), specialization := some (""), hourlyRate := some 0,
    bio := some (""), isVerified := none }

/-! ### Gate helper lemmas -/

theorem findSplit_none {α : Type} (p : α → Bool) (l : List α)
    (h : ∀ x ∈ l, p x = false) : findSplit p l = none := by
  induction l with
  | nil => rfl
  | cons x xs ih =>
    have hx : p x = false := h x (List.mem_cons_self x xs)
    have hxs : ∀ y ∈ xs, p y = false := fun y hy => h y (List.mem_cons_of_mem x hy)
    simp [findSplit, hx, ih hxs]

theorem findSplit_append {α : Type} (p : α → Bool) (pre post : List α) (s : α)
    (hpre : ∀ x ∈ pre, p x = false) (hs : p s = true) :
    findSplit p (pre ++ s :: post) = some (pre, s, post) := by
  induction pre with
  | nil => simp [findSplit, hs]
  | cons x xs ih =>
    have hx : p x = false := hpre x (List.mem_cons_self x xs)
    have hxs : ∀ y ∈ xs, p y = false := fun y hy => hpre y (List.mem_cons_of_mem x hy)
    simp [findSplit, hx, ih hxs]

/-- In the no-match branch, the workout gate appends exactly the freshly
created FREE subscription with its workout counter saved as 1, and allows. -/
theorem canGenerateWorkoutPlan_noMatch (now : Int) (subs : List Subscription)
    (h : ∀ x ∈ subs, subMatches now x = false) :
    canGenerateWorkoutPlan true now subs =
      { state := subs ++ [{ createFreeSubscription now with workoutPlansGenerated := 1 }]
        response := .allowed } := by
  simp [canGenerateWorkoutPlan, findSplit_none (subMatches now) subs h,
    createFreeSubscription]

/-- In the no-match branch, the meal gate appends exactly the freshly
created FREE subscription with its meal counter saved as 1, and allows. -/
theorem canGenerateMealPlan_noMatch (now : Int) (subs : List Subscription)
    (h : ∀ x ∈ subs, subMatches now x = false) :
    canGenerateMealPlan true now subs =
      { state := subs ++ [{ createFreeSubscription now with mealPlansGenerated := 1 }]
        response := .allowed } := by
  simp [canGenerateMealPlan, findSplit_none (subMatches now) subs h,
    createFreeSubscription]

/-- Found-branch behaviour of the workout gate on a FREE subscription:
below-quota requests increment the counter by exactly one and allow;
at-or-above-quota requests are rejected with 403 and the state untouched. -/
theorem canGenerateWorkoutPlan_found_free (now : Int)
    (pre post : List Subscription) (s : Subscription)
    (hpre : ∀ x ∈ pre, subMatches now x = false)
    (hs : subMatches now s = true) (hplan : s.plan = Plan.FREE) :
    (s.workoutPlansGenerated < 2 →
      canGenerateWorkoutPlan true now (pre ++ s :: post) =
        { state := pre ++ { s with workoutPlansGenerated := s.workoutPlansGenerated + 1 } :: post
          response := .allowed }) ∧
    (2 ≤ s.workoutPlansGenerated →
      canGenerateWorkoutPlan true now (pre ++ s :: post) =
        { state := pre ++ s :: post
          response := .rejected 403 false workoutLimitMessage (some true) }) := by
  have hsplit := findSplit_append (subMatches now) pre post s hpre hs
  constructor
  · intro hlt
    simp [canGenerateWorkoutPlan, hsplit, hplan, Nat.not_le_of_lt hlt]
  · intro hge
    simp [canGenerateWorkoutPlan, hsplit, hplan, hge]

/-- Found-branch behaviour of the meal gate on a FREE subscription. -/
theorem canGenerateMealPlan_found_free (now : Int)
    (pre post : List Subscription) (s : Subscription)
    (hpre : ∀ x ∈ pre, subMatches now x = false)
    (hs : subMatches now s = true) (hplan : s.plan = Plan.FREE) :
    (s.mealPlansGenerated < 2 →
      canGenerateMealPlan true now (pre ++ s :: post) =
        { state := pre ++ { s with mealPlansGenerated := s.mealPlansGenerated + 1 } :: post
          response := .allowed }) ∧
    (2 ≤ s.mealPlansGenerated →
      canGenerateMealPlan true now (pre ++ s :: post) =
        { state := pre ++ s :: post
          response := .rejected 403 false mealLimitMessage (some true) }) := by
  have hsplit := findSplit_append (subMatches now) pre post s hpre hs
  constructor
  · intro hlt
    simp [canGenerateMealPlan, hsplit, hplan, Nat.not_le_of_lt hlt]
  · intro hge
    simp [canGenerateMealPlan, hsplit, hplan, hge]

/-! ### Enrichment helper lemmas -/

theorem enrichExercises_ok (gv : String → Except String String) :
    ∀ (es es' : List Exercise), enrichExercises gv es = .ok es' →
      ∀ e' ∈ es', gv e'.name = .ok e'.gif_url := by
  intro es
  induction es with
  | nil =>
    intro es' h e' he'
    simp [enrichExercises] at h
    subst h
    cases he'
  | cons e rest ih =>
    intro es' h e' he'
    cases hgv : gv e.name with
    | error m => simp [enrichExercises, hgv] at h
    | ok url =>
      cases hrec : enrichExercises gv rest with
      | error m => simp [enrichExercises, hgv, hrec] at h
      | ok tail =>
        simp [enrichExercises, hgv, hrec] at h
        subst h
        rcases List.mem_cons.mp he' with h1 | h2
        · subst h1; simpa using hgv
        · exact ih tail hrec e' h2

theorem enrichDays_ok (gv : String → Except String String) :
    ∀ (ds ds' : List (String × ExerciseSection)), enrichDays gv ds = .ok ds' →
      ∀ d ∈ ds', ∀ e ∈ d.2.exercises, gv e.name = .ok e.gif_url := by
  intro ds
  induction ds with
  | nil =>
    intro ds' h d hd e he
    simp [enrichDays] at h
    subst h
    cases hd
  | cons p rest ih =>
    intro ds' h d hd e he
    obtain ⟨day, sec⟩ := p
    cases hex : enrichExercises gv sec.exercises with
    | error m => simp [enrichDays, hex] at h
    | ok exs =>
      cases hrec : enrichDays gv rest with
      | error m => simp [enrichDays, hex, hrec] at h
      | ok tail =>
        simp [enrichDays, hex, hrec] at h
        subst h
        rcases List.mem_cons.mp hd with h1 | h2
        · subst h1
          exact enrichExercises_ok gv sec.exercises exs hex e he
        · exact ih tail hrec d h2 e he

theorem enrichPlan_ok (gv : String → Except String String)
    (wp : RawWorkoutPlan) (plan : EnrichedWorkoutPlan)
    (h : enrichPlan gv wp = .ok plan) :
    ∀ e ∈ allExercises plan, gv e.name = .ok e.gif_url := by
  cases hd : wp.daily_workouts with
  | none => simp [enrichPlan, hd] at h
  | some days =>
  cases hds : enrichDays gv days with
  | error m => simp [enrichPlan, hd, hds] at h
  | ok days2 =>
  cases hw : wp.warm_up with
  | none => simp [enrichPlan, hd, hds, hw] at h
  | some w =>
  cases hwe : enrichExercises gv w.exercises with
  | error m => simp [enrichPlan, hd, hds, hw, hwe] at h
  | ok w2 =>
  cases hc : wp.cool_down with
  | none => simp [enrichPlan, hd, hds, hw, hwe, hc] at h
  | some c =>
  cases hce : enrichExercises gv c.exercises with
  | error m => simp [enrichPlan, hd, hds, hw, hwe, hc, hce] at h
  | ok c2 =>
  simp [enrichPlan, hd, hds, hw, hwe, hc, hce] at h
  subst h
  intro e he
  simp [allExercises, List.mem_flatten, List.mem_map] at he
  rcases he with ⟨l, ⟨d, s2, hmem, hexl⟩, hel⟩ | he | he
  · subst hexl
    exact enrichDays_ok gv days days2 hds (d, s2) hmem e hel
  · exact enrichExercises_ok gv w.exercises w2 hwe e he
  · exact enrichExercises_ok gv c.exercises c2 hce e he

theorem enrichExercises_error (gv : String → Except String String) :
    ∀ (es : List Exercise) (e : Exercise), e ∈ es →
      (∃ m, gv e.name = .error m) →
      ∃ m', enrichExercises gv es = .error m' := by
  intro es
  induction es with
  | nil => intro e he; cases he
  | cons e0 rest ih =>
    intro e he ⟨m, hm⟩
    cases hgv : gv e0.name with
    | error m0 => exact ⟨m0, by simp [enrichExercises, hgv]⟩
    | ok url =>
      rcases List.mem_cons.mp he with h1 | h2
      · subst h1
        rw [hgv] at hm
        cases hm
      · obtain ⟨m', hm'⟩ := ih e h2 ⟨m, hm⟩
        exact ⟨m', by simp [enrichExercises, hgv, hm']⟩

theorem enrichDays_error (gv : String → Except String String) :
    ∀ (ds : List (String × ExerciseSection)) (d : String × ExerciseSection),
      d ∈ ds → ∀ e ∈ d.2.exercises, (∃ m, gv e.name = .error m) →
      ∃ m', enrichDays gv ds = .error m' := by
  intro ds
  induction ds with
  | nil => intro d hd; cases hd
  | cons p rest ih =>
    intro d hd e he hm
    obtain ⟨day, sec⟩ := p
    cases hex : enrichExercises gv sec.exercises with
    | error m0 => exact ⟨m0, by simp [enrichDays, hex]⟩
    | ok exs =>
      rcases List.mem_cons.mp hd with h1 | h2
      · subst h1
        obtain ⟨m', hm'⟩ := enrichExercises_error gv sec.exercises e he hm
        rw [hex] at hm'
        cases hm'
      · obtain ⟨m', hm'⟩ := ih d h2 e he hm
        exact ⟨m', by simp [enrichDays, hex, hm']⟩

theorem enrichPlan_error (gv : String → Except String String)
    (wp : RawWorkoutPlan) (e : Exercise) (he : e ∈ rawAllExercises wp)
    (hv : ∃ m, gv e.name = .error m) :
    ∃ m', enrichPlan gv wp = .error m' := by
  cases hd : wp.daily_workouts with
  | none =>
    exact ⟨undefinedError, by simp [enrichPlan, hd]⟩
  | some days =>
  cases hds : enrichDays gv days with
  | error m => exact ⟨m, by simp [enrichPlan, hd, hds]⟩
  | ok days2 =>
  cases hw : wp.warm_up with
  | none => exact ⟨undefinedError, by simp [enrichPlan, hd, hds, hw]⟩
  | some w =>
  cases hwe : enrichExercises gv w.exercises with
  | error m => exact ⟨m, by simp [enrichPlan, hd, hds, hw, hwe]⟩
  | ok w2 =>
  cases hc : wp.cool_down with
  | none => exact ⟨undefinedError, by simp [enrichPlan, hd, hds, hw, hwe, hc]⟩
  | some c =>
  cases hce : enrichExercises gv c.exercises with
  | error m => exact ⟨m, by simp [enrichPlan, hd, hds, hw, hwe, hc, hce]⟩
  | ok c2 =>
  exfalso
  simp [rawAllExercises, hd, hw, hc, optSectionExercises,
    List.mem_flatten, List.mem_map] at he
  rcases he with ⟨l, ⟨d, s2, hmem, hexl⟩, hel⟩ | he | he
  · subst hexl
    obtain ⟨m', hm'⟩ := enrichDays_error gv days (d, s2) hmem e hel hv
    rw [hds] at hm'
    cases hm'
  · obtain ⟨m', hm'⟩ := enrichExercises_error gv w.exercises e he hv
    rw [hwe] at hm'
    cases hm'
  · obtain ⟨m', hm'⟩ := enrichExercises_error gv c.exercises e he hv
    rw [hce] at hm'
    cases hm'

theorem enrichPlan_missing_section (gv : String → Except String String)
    (wp : RawWorkoutPlan)
    (h : wp.daily_workouts = none ∨ wp.warm_up = none ∨ wp.cool_down = none) :
    ∃ m, enrichPlan gv wp = .error m := by
  cases hd : wp.daily_workouts with
  | none => exact ⟨undefinedError, by simp [enrichPlan, hd]⟩
  | some days =>
  cases hds : enrichDays gv days with
  | error m => exact ⟨m, by simp [enrichPlan, hd, hds]⟩
  | ok days2 =>
  cases hw : wp.warm_up with
  | none => exact ⟨undefinedError, by simp [enrichPlan, hd, hds, hw]⟩
  | some w =>
  cases hwe : enrichExercises gv w.exercises with
  | error m => exact ⟨m, by simp [enrichPlan, hd, hds, hw, hwe]⟩
  | ok w2 =>
  cases hc : wp.cool_down with
  | none => exact ⟨undefinedError, by simp [enrichPlan, hd, hds, hw, hwe, hc]⟩
  | some c =>
  rcases h with h | h | h <;> simp_all

/-- C1: for a user whose active subscription has plan FREE, the workout gate
allows and increments `workoutPlansGenerated` by exactly one when the counter
is below 2, and rejects with 403 and body
`{success: false, message, subscriptionRequired: true}` when it is at least
2; consequently a user starting with no subscription sees the first two
requests succeed with the counter going to 1 then 2 and the third rejected. -/
theorem C1_free_workout_quota (now : Int) (pre post : List Subscription)
    (s : Subscription) (hpre : ∀ x ∈ pre, subMatches now x = false)
    (hs : subMatches now s = true) (hplan : s.plan = Plan.FREE) :
    ((s.workoutPlansGenerated < 2 →
        canGenerateWorkoutPlan true now (pre ++ s :: post) =
          { state :=
              pre ++ { s with workoutPlansGenerated := s.workoutPlansGenerated + 1 } :: post
            response := .allowed }) ∧
      (2 ≤ s.workoutPlansGenerated →
        canGenerateWorkoutPlan true now (pre ++ s :: post) =
          { state := pre ++ s :: post
            response := .rejected 403 false workoutLimitMessage (some true) })) ∧
    ((canGenerateWorkoutPlan true 0 []).response = .allowed ∧
      (canGenerateWorkoutPlan true 0 []).state.map Subscription.workoutPlansGenerated
        = [1] ∧
      (canGenerateWorkoutPlan true 0
          (canGenerateWorkoutPlan true 0 []).state).response = .allowed ∧
      (canGenerateWorkoutPlan true 0
          (canGenerateWorkoutPlan true 0 []).state).state.map
            Subscription.workoutPlansGenerated = [2] ∧
      (canGenerateWorkoutPlan true 0
          (canGenerateWorkoutPlan true 0
            (canGenerateWorkoutPlan true 0 []).state).state).response =
        .rejected 403 false workoutLimitMessage (some true)) :=
  ⟨canGenerateWorkoutPlan_found_free now pre post s hpre hs hplan, by decide⟩

theorem C1_witness :
    canGenerateWorkoutPlan true 0
        [{ plan := Plan.FREE, active := true, startDate := 0, endDate := 100,
           workoutPlansGenerated := 0, mealPlansGenerated := 0 }] =
      { state := [{ plan := Plan.FREE, active := true, startDate := 0, endDate := 100,
                    workoutPlansGenerated := 1, mealPlansGenerated := 0 }]
        response := .allowed } :=
  (C1_free_workout_quota 0 [] []
      { plan := Plan.FREE, active := true, startDate := 0, endDate := 100,
        workoutPlansGenerated := 0, mealPlansGenerated := 0 }
      (by simp) (by decide) rfl).1.1 (by decide)

/-- C5: for an authenticated user with no subscription matching
`active = true ∧ endDate ≥ now`, both gates create exactly one new
subscription with plan FREE, active, `startDate = now`,
`endDate = now + 1 year`, and both counters 0, before the quota decision
(the saved record then carries the single increment of the relevant
counter). -/
theorem C5_lazy_creation (now : Int) (subs : List Subscription)
    (h : ∀ x ∈ subs, subMatches now x = false) :
    createFreeSubscription now =
      { plan := Plan.FREE, active := true, startDate := now,
        endDate := addOneYear now, workoutPlansGenerated := 0,
        mealPlansGenerated := 0 } ∧
    canGenerateWorkoutPlan true now subs =
      { state := subs ++ [{ createFreeSubscription now with workoutPlansGenerated := 1 }]
        response := .allowed } ∧
    canGenerateMealPlan true now subs =
      { state := subs ++ [{ createFreeSubscription now with mealPlansGenerated := 1 }]
        response := .allowed } :=
  ⟨rfl, canGenerateWorkoutPlan_noMatch now subs h,
    canGenerateMealPlan_noMatch now subs h⟩

theorem C5_witness :
    canGenerateWorkoutPlan true 7 [] =
      { state := [{ plan := Plan.FREE, active := true, startDate := 7,
                    endDate := addOneYear 7, workoutPlansGenerated := 1,
                    mealPlansGenerated := 0 }]
        response := .allowed } :=
  (C5_lazy_creation 7 [] (by simp)).2.1

/-- C6: for a user whose active subscription has plan PREMIUM, both gates
allow unconditionally and leave the subscription collection entirely
unchanged — in particular neither counter is incremented. -/
theorem C6_premium_unchanged (now : Int) (pre post : List Subscription)
    (s : Subscription) (hpre : ∀ x ∈ pre, subMatches now x = false)
    (hs : subMatches now s = true) (hplan : s.plan = Plan.PREMIUM) :
    canGenerateWorkoutPlan true now (pre ++ s :: post) =
      { state := pre ++ s :: post, response := .allowed } ∧
    canGenerateMealPlan true now (pre ++ s :: post) =
      { state := pre ++ s :: post, response := .allowed } := by
  have hsplit := findSplit_append (subMatches now) pre post s hpre hs
  constructor <;> simp [canGenerateWorkoutPlan, canGenerateMealPlan, hsplit, hplan]

theorem C6_witness :
    canGenerateWorkoutPlan true 0
        [{ plan := Plan.PREMIUM, active := true, startDate := 0, endDate := 50,
           workoutPlansGenerated := 9, mealPlansGenerated := 9 }] =
      { state := [{ plan := Plan.PREMIUM, active := true, startDate := 0, endDate := 50,
                    workoutPlansGenerated := 9, mealPlansGenerated := 9 }]
        response := .allowed } :=
  (C6_premium_unchanged 0 [] []
      { plan := Plan.PREMIUM, active := true, startDate := 0, endDate := 50,
        workoutPlansGenerated := 9, mealPlansGenerated := 9 }
      (by simp) (by decide) rfl).1

/-- C9: in the lazy-creation branch of both gates the quota rejection is
unreachable — the freshly created record has both counters 0, so the
`counter ≥ 2` test is false, and the request is always allowed with the
relevant counter saved as exactly 1. -/
theorem C9_lazy_branch_unreachable (now : Int) (subs : List Subscription)
    (h : ∀ x ∈ subs, subMatches now x = false) :
    ¬(2 ≤ (createFreeSubscription now).workoutPlansGenerated) ∧
    ¬(2 ≤ (createFreeSubscription now).mealPlansGenerated) ∧
    (canGenerateWorkoutPlan true now subs).response = .allowed ∧
    (canGenerateWorkoutPlan true now subs).state =
      subs ++ [{ createFreeSubscription now with workoutPlansGenerated := 1 }] ∧
    (canGenerateMealPlan true now subs).response = .allowed ∧
    (canGenerateMealPlan true now subs).state =
      subs ++ [{ createFreeSubscription now with mealPlansGenerated := 1 }] := by
  refine ⟨by simp [createFreeSubscription], by simp [createFreeSubscription], ?_, ?_, ?_, ?_⟩ <;>
    simp [canGenerateWorkoutPlan_noMatch now subs h,
      canGenerateMealPlan_noMatch now subs h]

theorem C9_witness :
    (canGenerateWorkoutPlan true 3 []).response = GateResponse.allowed :=
  (C9_lazy_branch_unreachable 3 [] (by simp)).2.2.1

/-- C2 (counterexample): a successful AI response whose `workout_plan`
lacks `daily_workouts`, `warm_up` and `cool_down` passes the shape
validation (which only checks the `workout_plan` key), throws during
enrichment, and is returned with the catch-handler message
"Failed to generate workout plan", not the typed validation message
"Invalid workout plan data received" the claim asserts. -/
theorem C2_counterexample :
    (workoutPlanGenerator gvAlwaysOk c2Response).success = false ∧
    (workoutPlanGenerator gvAlwaysOk c2Response).message =
      "Failed to generate workout plan" ∧
    ¬((workoutPlanGenerator gvAlwaysOk c2Response).message =
      "Invalid workout plan data received") := by
  decide

/-- C2 (amended): when the payload is absent or lacks a (truthy)
`workout_plan` key, generation returns the typed validation failure
`{success: false, message: "Invalid workout plan data received"}`; when
`workout_plan` is present but lacks `daily_workouts`, `warm_up`, or
`cool_down`, generation still returns `success: false` with no plan data —
but via the catch handler, with message "Failed to generate workout plan".
In neither case is a partial plan propagated. -/
theorem C2_invalid_payload (gv : String → Except String String)
    (res : GeminiResponse) :
    (res.success = true →
      (res.data = none ∨ ∃ d, res.data = some d ∧ d.workout_plan = none) →
      workoutPlanGenerator gv res = invalidDataResult) ∧
    (∀ wp, res.success = true →
      res.data = some { workout_plan := some wp } →
      (wp.daily_workouts = none ∨ wp.warm_up = none ∨ wp.cool_down = none) →
      (workoutPlanGenerator gv res).success = false ∧
      (workoutPlanGenerator gv res).data = none ∧
      (workoutPlanGenerator gv res).message = "Failed to generate workout plan") := by
  constructor
  · intro hs hd
    rcases hd with hd | ⟨d, hd, hwp⟩
    · simp [workoutPlanGenerator, workoutPlanGeneratorBody, hs, hd]
    · simp [workoutPlanGenerator, workoutPlanGeneratorBody, hs, hd,
        isWorkoutPlan, hwp]
  · intro wp hs hd hmiss
    obtain ⟨m, hm⟩ := enrichPlan_missing_section gv wp hmiss
    simp [workoutPlanGenerator, workoutPlanGeneratorBody, hs, hd,
      isWorkoutPlan, hm]

theorem C2_witness :
    (workoutPlanGenerator gvAlwaysOk c2Response).success = false ∧
    (workoutPlanGenerator gvAlwaysOk c2Response).data = none ∧
    (workoutPlanGenerator gvAlwaysOk c2Response).message =
      "Failed to generate workout plan" :=
  (C2_invalid_payload gvAlwaysOk c2Response).2 emptyRawPlan rfl rfl (Or.inl rfl)

/-- C3: in every plan-generation result with `success: true`, every
exercise of every section carries the video-search client's value for its
name in `gif_url`; and if some exercise of the payload has a throwing
lookup, the whole generation returns `success: false`. -/
theorem C3_video_enrichment (gv : String → Except String String)
    (res : GeminiResponse) :
    ((workoutPlanGenerator gv res).success = true →
      ∃ plan, (workoutPlanGenerator gv res).data = some plan ∧
        ∀ e ∈ allExercises plan, gv e.name = .ok e.gif_url) ∧
    (∀ wp, res.data = some { workout_plan := some wp } →
      (∃ e ∈ rawAllExercises wp, ∃ m, gv e.name = .error m) →
      (workoutPlanGenerator gv res).success = false) := by
  constructor
  · intro hsucc
    by_cases hs : res.success = false
    · simp [workoutPlanGenerator, workoutPlanGeneratorBody, hs] at hsucc
    · cases hd : res.data with
      | none =>
        simp [workoutPlanGenerator, workoutPlanGeneratorBody, hs, hd,
          invalidDataResult] at hsucc
      | some d =>
        cases hwp : d.workout_plan with
        | none =>
          simp [workoutPlanGenerator, workoutPlanGeneratorBody, hs, hd,
            isWorkoutPlan, hwp, invalidDataResult] at hsucc
        | some wp =>
          cases hep : enrichPlan gv wp with
          | error m =>
            simp [workoutPlanGenerator, workoutPlanGeneratorBody, hs, hd,
              isWorkoutPlan, hwp, hep] at hsucc
          | ok plan =>
            refine ⟨plan, ?_, enrichPlan_ok gv wp plan hep⟩
            simp [workoutPlanGenerator, workoutPlanGeneratorBody, hs, hd,
              isWorkoutPlan, hwp, hep]
  · intro wp hd he
    by_cases hs : res.success = false
    · simp [workoutPlanGenerator, workoutPlanGeneratorBody, hs]
    · obtain ⟨e, hmem, hv⟩ := he
      obtain ⟨m', hm'⟩ := enrichPlan_error gv wp e hmem hv
      simp [workoutPlanGenerator, workoutPlanGeneratorBody, hs, hd,
        isWorkoutPlan, hm']

theorem C3_witness :
    ∃ plan,
      (workoutPlanGenerator gvAlwaysOk samplePlanResponse).data = some plan ∧
      ∀ e ∈ allExercises plan, gvAlwaysOk e.name = .ok e.gif_url :=
  (C3_video_enrichment gvAlwaysOk samplePlanResponse).1 (by decide)

/-- C4: `workoutPlanGenerator` never throws: a Gemini failure is mapped to
`{success: false}` carrying the client's message (or the default) and
error, and any exception raised by the try-block body is converted by the
catch handler to `{success: false,
message: "Failed to generate workout plan", error}`. -/
theorem C4_no_throw (gv : String → Except String String)
    (res : GeminiResponse) :
    (res.success = false →
      workoutPlanGenerator gv res =
        { success := false,
          message := jsOr res.message ("Failed to generate workout plan"),
          data := none,
          error := res.error }) ∧
    (∀ e, workoutPlanGeneratorBody gv res = .error e →
      workoutPlanGenerator gv res =
        { success := false,
          message := "Failed to generate workout plan",
          data := none,
          error := some e }) := by
  constructor
  · intro hs
    simp [workoutPlanGenerator, workoutPlanGeneratorBody, hs]
  · intro e he
    simp [workoutPlanGenerator, he]

theorem C4_witness :
    workoutPlanGenerator gvAlwaysOk failedGemini =
      { success := false,
        message := jsOr failedGemini.message ("Failed to generate workout plan"),
        data := none,
        error := failedGemini.error } :=
  (C4_no_throw gvAlwaysOk failedGemini).1 rfl

/-! ### Admin route helper lemmas -/

theorem deleteField_no_password (fs : List (String × String)) :
    fieldsHavePassword (deleteField ("password") fs) = false := by
  induction fs with
  | nil => rfl
  | cons kv fs ih =>
    cases h : kv.1 == "password" with
    | true => simp [deleteField, h, ih]
    | false => simp [deleteField, h, fieldsHavePassword, ih]

theorem stripUser_no_password (u : UserDoc) :
    fieldsHavePassword (stripUser u) = false :=
  deleteField_no_password (userToFields u)

theorem mapStrip_no_password (l : List UserDoc) :
    (l.map stripUser).any fieldsHavePassword = false := by
  induction l with
  | nil => rfl
  | cons u us ih => simp [stripUser_no_password, ih]

theorem applyTrainerUpdates_hourlyRate_zero (b : PatchTrainerBody)
    (u : UserDoc) (h : b.hourlyRate = some 0) :
    (applyTrainerUpdates b u).hourlyRate = u.hourlyRate := by
  cases hn : b.name <;> cases hs : b.specialization <;> cases hb : b.bio <;>
    cases hv : b.isVerified <;>
    simp [applyTrainerUpdates, h, hn, hs, hb, hv] <;> split_ifs <;> simp_all

theorem applyTrainerUpdates_name_empty (b : PatchTrainerBody)
    (u : UserDoc) (h : b.name = some ("")) :
    (applyTrainerUpdates b u).name = u.name := by
  cases hr : b.hourlyRate <;> cases hs : b.specialization <;> cases hb : b.bio <;>
    cases hv : b.isVerified <;>
    simp [applyTrainerUpdates, h, hr, hs, hb, hv] <;> split_ifs <;> simp_all

theorem applyTrainerUpdates_specialization_empty (b : PatchTrainerBody)
    (u : UserDoc) (h : b.specialization = some ("")) :
    (applyTrainerUpdates b u).specialization = u.specialization := by
  cases hn : b.name <;> cases hr : b.hourlyRate <;> cases hb : b.bio <;>
    cases hv : b.isVerified <;>
    simp [applyTrainerUpdates, h, hn, hr, hb, hv] <;> split_ifs <;> simp_all

theorem applyTrainerUpdates_bio_empty (b : PatchTrainerBody)
    (u : UserDoc) (h : b.bio = some ("")) :
    (applyTrainerUpdates b u).bio = u.bio := by
  cases hn : b.name <;> cases hs : b.specialization <;> cases hr : b.hourlyRate <;>
    cases hv : b.isVerified <;>
    simp [applyTrainerUpdates, h, hn, hs, hr, hv] <;> split_ifs <;> simp_all

theorem applyTrainerUpdates_all_falsy (b : PatchTrainerBody) (u : UserDoc)
    (hn : b.name = some ("")) (hs : b.specialization = some (""))
    (hr : b.hourlyRate = some 0) (hb : b.bio = some (""))
    (hv : b.isVerified = none) :
    applyTrainerUpdates b u = u := by
  simp [applyTrainerUpdates, hn, hs, hr, hb, hv]

/-- C7: no response of any of the seven admin routes — for any store and
any request — carries a `password` field, even though stored documents do. -/
theorem C7_no_password_leak (hash : String → String) (store : List UserDoc)
    (ntb : NewTrainerBody) (ptb : PatchTrainerBody) (tib : TrainerInfoBody)
    (tid uid : Nat) (roleStr : String) :
    bodyHasPassword (getTrainers store).body = false ∧
    bodyHasPassword (postTrainer hash store ntb).1.body = false ∧
    bodyHasPassword (patchTrainer store tid ptb).1.body = false ∧
    bodyHasPassword (deleteTrainer store tid).1.body = false ∧
    bodyHasPassword (getUsers store).body = false ∧
    bodyHasPassword (patchUserRole store uid roleStr).1.body = false ∧
    bodyHasPassword (patchTrainerInfo store tid tib).1.body = false := by
  refine ⟨?_, ?_, ?_, ?_, ?_, ?_, ?_⟩
  · simp [getTrainers, bodyHasPassword, mapStrip_no_password]
  · by_cases h : (store.find? (fun u => u.email == ntb.email)).isSome <;>
      simp [postTrainer, h, bodyHasPassword, fieldsHavePassword,
        stripUser_no_password]
  · cases h : findTrainer store tid with
    | none => simp [patchTrainer, h, bodyHasPassword, fieldsHavePassword]
    | some u =>
      have hb : (patchTrainer store tid ptb).1.body =
          .obj (stripUser (applyTrainerUpdates ptb u)) := by
        simp [patchTrainer, h]
      rw [hb]
      exact stripUser_no_password _
  · cases h : findTrainer store tid <;>
      simp [deleteTrainer, h, bodyHasPassword, fieldsHavePassword]
  · simp [getUsers, bodyHasPassword, mapStrip_no_password]
  · cases h : roleOfString roleStr with
    | none => simp [patchUserRole, h, bodyHasPassword, fieldsHavePassword]
    | some r =>
      cases h2 : store.find? (fun u => u.id == uid) with
      | none => simp [patchUserRole, h, h2, bodyHasPassword, fieldsHavePassword]
      | some u =>
        have hb : (patchUserRole store uid roleStr).1.body =
            .obj (stripUser { u with role := r }) := by
          simp [patchUserRole, h, h2]
        rw [hb]
        exact stripUser_no_password _
  · cases h : validateTrainerInfo tib with
    | some msg => simp [patchTrainerInfo, h, bodyHasPassword, fieldsHavePassword]
    | none =>
      cases h2 : findTrainer store tid with
      | none => simp [patchTrainerInfo, h, h2, bodyHasPassword, fieldsHavePassword]
      | some u =>
        simp only [patchTrainerInfo, h, h2]
        exact stripUser_no_password _

/-- C8: a `PATCH /users/:userId/role` request whose `role` is not one of
ADMIN, TRAINER, USER is answered 400 with the first schema-violation
message, and the store is untouched — validation precedes any store
access. -/
theorem C8_invalid_role_rejected (store : List UserDoc) (uid : Nat)
    (roleStr : String)
    (h : ¬(roleStr = "ADMIN" ∨ roleStr = "TRAINER" ∨ roleStr = "USER")) :
    patchUserRole store uid roleStr =
      ({ status := 400, body := .obj [("error", invalidEnumMessage roleStr)] },
        store) := by
  push_neg at h
  obtain ⟨h1, h2, h3⟩ := h
  simp [patchUserRole, roleOfString, h1, h2, h3]

theorem C8_witness :
    patchUserRole [] 0 "SUPERADMIN" =
      ({ status := 400,
         body := .obj [("error", invalidEnumMessage ("SUPERADMIN"))] }, []) :=
  C8_invalid_role_rejected [] 0 "SUPERADMIN" (by decide)

/-- C10: `PATCH /trainers/:trainerId` applies `name`, `specialization`,
`hourlyRate`, `bio` only when the supplied value is truthy: `hourlyRate = 0`
or an empty string leaves that stored field unchanged, the response is
still 200 with no validation error, and an all-falsy body returns the
stored record (password-stripped) unmodified. -/
theorem C10_truthy_guarded_updates (store : List UserDoc) (tid : Nat)
    (b : PatchTrainerBody) (u : UserDoc)
    (hfind : findTrainer store tid = some u) :
    (patchTrainer store tid b).1.status = 200 ∧
    (b.hourlyRate = some 0 →
      (applyTrainerUpdates b u).hourlyRate = u.hourlyRate) ∧
    (b.name = some ("") → (applyTrainerUpdates b u).name = u.name) ∧
    (b.specialization = some ("") →
      (applyTrainerUpdates b u).specialization = u.specialization) ∧
    (b.bio = some ("") → (applyTrainerUpdates b u).bio = u.bio) ∧
    (b.name = some ("") → b.specialization = some ("") → b.hourlyRate = some 0 →
      b.bio = some ("") → b.isVerified = none →
      applyTrainerUpdates b u = u ∧
      patchTrainer store tid b =
        ({ status := 200, body := .obj (stripUser u) }, replaceById store u)) := by
  refine ⟨?_, ?_, ?_, ?_, ?_, ?_⟩
  · simp [patchTrainer, hfind]
  · exact applyTrainerUpdates_hourlyRate_zero b u
  · exact applyTrainerUpdates_name_empty b u
  · exact applyTrainerUpdates_specialization_empty b u
  · exact applyTrainerUpdates_bio_empty b u
  · intro hn hs hr hb hv
    have hid := applyTrainerUpdates_all_falsy b u hn hs hr hb hv
    exact ⟨hid, by simp [patchTrainer, hfind, hid]⟩

theorem C10_witness :
    (patchTrainer [sampleTrainer] 1 falsyPatchBody).1.status = 200 ∧
    applyTrainerUpdates falsyPatchBody sampleTrainer = sampleTrainer :=
  have h := C10_truthy_guarded_updates [sampleTrainer] 1 falsyPatchBody
    sampleTrainer (by decide)
  ⟨h.1, (h.2.2.2.2.2 rfl rfl rfl rfl rfl).1⟩

end FreakyFit
